import Mathlib

/-!
Verification of the SMM automation job engine (files `config.py`, `bot.py`,
`app.py`).  The Python code is shallowly embedded: jobs are records whose
optional dictionary keys become `Option` fields, timestamps and quantities are
integers, percentages are rationals, and every interaction with the outside
world (the remote panel call, the random draw, the user store lookup, a raised
exception) is an explicit input to the function that the source code obtains
from the environment.  Notifications and logging are write-only side effects
with no influence on the state and are omitted.
-/

namespace SMM

/-- Python `int(x)` on a real number: truncation toward zero. -/
def pyInt (x : ℚ) : Int :=
  if 0 ≤ x then ⌊x⌋ else ⌈x⌉

/-- `bot.calculate_next_quantity(current_quantity, increase_range)`.
The tuple unpacking `min_increase, max_increase = increase_range` succeeds
exactly when the range has two entries; any other shape raises and the
handler returns `int(current_quantity * 1.1)`.  The uniform draw
`random.uniform(min, max)` is the explicit argument `p`. -/
def calculate_next_quantity (current_quantity : Int) (increase_range : List ℚ)
    (p : ℚ) : Int :=
  match increase_range with
  | [_, _] =>
      let increase_amount := pyInt ((current_quantity : ℚ) * (p / 100))
      current_quantity + increase_amount
  | _ => pyInt ((current_quantity : ℚ) * (11 / 10))

/-- Shape of the panel's JSON reply to an `add` action, as `place_order`
inspects it: a reply is a success iff the `order` key is present. -/
structure PanelResp where
  order : Option String
  error : Option String
deriving DecidableEq

/-- The global `bot_statistics` counters that `place_order` updates. -/
structure BotStats where
  total_orders : Int
  successful_orders : Int
  failed_orders : Int
  total_spent : ℚ
  last_24h_orders : Int
deriving DecidableEq

/-- `bot.place_order`.  The remote call `connect_smm_panel` either returns a
reply dictionary or raises (`panel = .error e`); in the latter case the
function's own handler returns `{"error": "Internal error: ..."}` and the
statistics are untouched.  On a returned reply the counters are updated:
total and last-24h always, success or failure depending on the presence of
`order`, and the spend estimate `quantity * 0.001` on success.  The Telegram
notifications are omitted.  The produced timestamp string is the explicit
argument `ts`. -/
def place_order (panel : Except String PanelResp) (ts : String)
    (quantity : Int) (stats : BotStats) : PanelResp × String × BotStats :=
  match panel with
  | .error e => ({ order := none, error := some ("Internal error: " ++ e) }, ts, stats)
  | .ok resp =>
      let s1 := { stats with
        total_orders := stats.total_orders + 1
        last_24h_orders := stats.last_24h_orders + 1 }
      let s2 :=
        if resp.order.isSome then
          { s1 with
            successful_orders := s1.successful_orders + 1
            total_spent := s1.total_spent + (quantity : ℚ) * (1 / 1000) }
        else
          { s1 with failed_orders := s1.failed_orders + 1 }
      (resp, ts, s2)

/-- The `order_info` record appended to a job's history by the scheduler. -/
structure OrderInfo where
  timestamp : String
  quantity : Int
  response : PanelResp
  job_id : String
  service_id : String
  link : String
deriving DecidableEq

/-- A background job dictionary.  Keys that some creation paths or lifecycle
operations leave out of the dictionary (`paused`, `bulk_group_id`,
`error_count`, the various timestamps) are `Option` fields with `none` for
an absent key; Python `None` stored under a key is also modelled as `none`
(no claim distinguishes the two). -/
structure Job where
  job_id : String
  user_id : String
  api_url : String
  api_key : String
  service_id : String
  link : String
  quantity : Int
  increase_range : List ℚ
  frequency : Int
  next_run : Int
  started_at : String
  stopped : Bool
  orders : Option (List OrderInfo)
  paused : Option Bool
  bulk_group_id : Option String
  paused_at : Option String
  resumed_at : Option String
  stopped_at : Option String
  stopped_by : Option String
  stopped_reason : Option String
  error_count : Option Int
  template_id : Option String
deriving DecidableEq

/-- Environment inputs consumed while the scheduler processes one job:
whether `user_id in user_data`, the outcome of the remote order call, the
timestamp string, the random percentage draw, and whether an exception is
raised while this job is processed (`raised`, with message `excMsg`).
Exceptions are modelled as occurring at the debug time-formatting line that
precedes the due-check and all job mutations. -/
structure TickEnv where
  userExists : Bool
  panel : Except String PanelResp
  ts : String
  percent : ℚ
  raised : Bool
  excMsg : String

/-- The `except` branch of the scheduler's per-job loop: increment
`error_count` (creating it at 1), and once it exceeds 5, mark the job
stopped with the recorded reason. -/
def exceptJob (excMsg : String) (job : Job) : Job :=
  let ec : Int := match job.error_count with
    | none => 1
    | some n => n + 1
  let j1 := { job with error_count := some ec }
  if ec > 5 then
    { j1 with stopped := true, stopped_reason := some ("Too many errors: " ++ excMsg) }
  else j1

/-- One iteration of the scheduler's per-job body in
`bot.process_automation_jobs`: skip a stopped job; otherwise, if an exception
is raised, run the `except` branch; otherwise, if the job is due
(`now >= next_run`) and its user exists, fire it (place the order, append to
the job's order history, compute the next quantity, advance `next_run` by
`frequency * 60`); in every other case keep the job unchanged.  Returns the
updated job, whether a dispatch was attempted, and the updated counters. -/
def stepJob (now : Int) (env : TickEnv) (stats : BotStats) (job : Job) :
    Job × Bool × BotStats :=
  if job.stopped then (job, false, stats)
  else if env.raised then (exceptJob env.excMsg job, false, stats)
  else if now ≥ job.next_run then
    if env.userExists then
      let r := place_order env.panel env.ts job.quantity stats
      let order_info : OrderInfo :=
        { timestamp := r.2.1
          quantity := job.quantity
          response := r.1
          job_id := job.job_id
          service_id := job.service_id
          link := job.link }
      let orders1 := (match job.orders with | none => [] | some os => os) ++ [order_info]
      let next_quantity := calculate_next_quantity job.quantity job.increase_range env.percent
      ({ job with
          orders := some orders1
          quantity := next_quantity
          next_run := now + job.frequency * 60 }, true, r.2.2)
    else (job, false, stats)
  else (job, false, stats)

/-- The scheduler walks `background_jobs` in order, appending each processed
job to `updated_jobs`; `i` indexes the per-job environment. -/
def processJobs (now : Int) (envf : Nat → TickEnv) :
    Nat → BotStats → List Job → List Job × BotStats
  | _, stats, [] => ([], stats)
  | i, stats, j :: js =>
      let r := stepJob now (envf i) stats j
      let rest := processJobs now envf (i + 1) r.2.2 js
      (r.1 :: rest.1, rest.2)

/-- One tick of `bot.process_automation_jobs` (one iteration of its
`while True` body): process every job in repository order and replace the
collection with the result. -/
def process_automation_jobs (now : Int) (envf : Nat → TickEnv)
    (stats : BotStats) (jobs : List Job) : List Job × BotStats :=
  processJobs now envf 0 stats jobs

/-- `app.pause_job(job_id, user_id)`: find the first job matching on both id
and owner, set `paused = True` and stamp `paused_at`, return `True`; if no
job matches, return `False`.  The stopped flag is not consulted.  The
produced timestamp string is the explicit argument `ts`. -/
def pause_job (job_id user_id ts : String) : List Job → List Job × Bool
  | [] => ([], false)
  | j :: js =>
      if j.job_id = job_id ∧ j.user_id = user_id then
        ({ j with paused := some true, paused_at := some ts } :: js, true)
      else
        let r := pause_job job_id user_id ts js
        (j :: r.1, r.2)

/-- `app.resume_job(job_id, user_id)`: find the first job matching on both id
and owner, set `paused = False`, stamp `resumed_at`, and set
`next_run = int(time.time())` (the argument `now`), return `True`; otherwise
`False`.  The stopped flag is not consulted. -/
def resume_job (job_id user_id ts : String) (now : Int) :
    List Job → List Job × Bool
  | [] => ([], false)
  | j :: js =>
      if j.job_id = job_id ∧ j.user_id = user_id then
        ({ j with paused := some false, resumed_at := some ts, next_run := now } :: js,
         true)
      else
        let r := resume_job job_id user_id ts now js
        (j :: r.1, r.2)

/-- `bot.stop_job(job_id, stopped_by)`: find the first job matching on id
only, set `stopped = True`, stamp `stopped_at`, and record `stopped_by` when
it is truthy (`none` models a falsy argument, leaving any previous value),
then return `True`; otherwise `False`.  Already-stopped jobs match like any
other.  Notifications are omitted. -/
def stop_job (job_id : String) (stopped_by : Option String) (ts : String) :
    List Job → List Job × Bool
  | [] => ([], false)
  | j :: js =>
      if j.job_id = job_id then
        ({ j with
            stopped := true
            stopped_at := some ts
            stopped_by := match stopped_by with
              | some s => some s
              | none => j.stopped_by } :: js, true)
      else
        let r := stop_job job_id stopped_by ts js
        (j :: r.1, r.2)

/-- The selection predicate shared by the three bulk operations in `app.py`:
`job.get('bulk_group_id') == bulk_group_id and job['user_id'] == user_id and
not job.get('stopped', False)`. -/
def bulkMatch (bulk_group_id user_id : String) (j : Job) : Prop :=
  j.bulk_group_id = some bulk_group_id ∧ j.user_id = user_id ∧ j.stopped = false

instance (g u : String) (j : Job) : Decidable (bulkMatch g u j) := by
  unfold bulkMatch; infer_instance

/-- `app.pause_bulk_jobs(bulk_group_id, user_id)`: for every job of the
group owned by the user and not stopped, set `paused = True` and stamp
`paused_at`; return the number of jobs touched. -/
def pause_bulk_jobs (bulk_group_id user_id ts : String) :
    List Job → List Job × Nat
  | [] => ([], 0)
  | j :: js =>
      let r := pause_bulk_jobs bulk_group_id user_id ts js
      if bulkMatch bulk_group_id user_id j then
        ({ j with paused := some true, paused_at := some ts } :: r.1, r.2 + 1)
      else (j :: r.1, r.2)

/-- `app.resume_bulk_jobs(bulk_group_id, user_id)`: for every job of the
group owned by the user and not stopped, set `paused = False`, stamp
`resumed_at`, and set `next_run` to the current time; return the count. -/
def resume_bulk_jobs (bulk_group_id user_id ts : String) (now : Int) :
    List Job → List Job × Nat
  | [] => ([], 0)
  | j :: js =>
      let r := resume_bulk_jobs bulk_group_id user_id ts now js
      if bulkMatch bulk_group_id user_id j then
        ({ j with paused := some false, resumed_at := some ts, next_run := now } :: r.1,
         r.2 + 1)
      else (j :: r.1, r.2)

/-- `app.stop_bulk_jobs(bulk_group_id, user_id)`: for every job of the group
owned by the user and not stopped, set `stopped = True` and stamp
`stopped_at`; return the count. -/
def stop_bulk_jobs (bulk_group_id user_id ts : String) :
    List Job → List Job × Nat
  | [] => ([], 0)
  | j :: js =>
      let r := stop_bulk_jobs bulk_group_id user_id ts js
      if bulkMatch bulk_group_id user_id j then
        ({ j with stopped := true, stopped_at := some ts } :: r.1, r.2 + 1)
      else (j :: r.1, r.2)

/-- Index-aware map used to hand each created job its generated id. -/
def mapWithIndex (f : Nat → α → β) : Nat → List α → List β
  | _, [] => []
  | i, a :: as => f i a :: mapWithIndex f (i + 1) as

/-- One `individual_service_id_i / individual_quantity_i / ...` block read by
the while-loop in `app.setup_automation`'s individual-settings branch. -/
structure ServiceConfig where
  service_id : String
  quantity : Int
  increase_min : ℚ
  increase_max : ℚ
  frequency : Int
deriving DecidableEq

/-- The POST form consumed by `app.setup_automation`.  The two textareas
(`bulk_links`, `bulk_service_ids`) are split on newlines, stripped, and
blank lines dropped before the creation logic looks at them; the form here
carries the resulting lists.  `configs` is the sequence of
`individual_*_{i}` blocks. -/
structure SetupForm where
  api_url : String
  api_key : String
  service_id : String
  bulk_service_ids : List String
  quantity : Int
  increase_min : ℚ
  increase_max : ℚ
  frequency : Int
  bulk_mode : Bool
  individual_settings : Bool
  bulk_links : List String
  link : String
  configs : List ServiceConfig

/-- A job built by the individual-settings branch of `app.setup_automation`:
per-config quantity/growth/frequency (the config frequency clamped up to 5),
`paused`/`paused_at`/`resumed_at` keys present (`False`/`None`/`None`), and
`bulk_group_id` present, `bulk_group_id if bulk_mode else None`. -/
def mkIndivJob (form : SetupForm) (c : ServiceConfig) (link : String)
    (jid : String) (gid : Option String) (nowT : Int) (startedAt : String) : Job :=
  { job_id := jid
    user_id := ""
    api_url := form.api_url
    api_key := form.api_key
    service_id := c.service_id
    link := link
    quantity := c.quantity
    increase_range := [c.increase_min, c.increase_max]
    frequency := if c.frequency < 5 then 5 else c.frequency
    next_run := nowT
    started_at := startedAt
    stopped := false
    orders := some []
    paused := some false
    bulk_group_id := gid
    paused_at := none
    resumed_at := none
    stopped_at := none
    stopped_by := none
    stopped_reason := none
    error_count := none
    template_id := none }

/-- A job built by the plain bulk/single branch of `app.setup_automation`:
form-level quantity/growth and the clamped form-level frequency; the
dictionary has no `paused`, `bulk_group_id`, or timestamp keys. -/
def mkPlainJob (form : SetupForm) (frequency : Int) (link sid : String)
    (jid : String) (nowT : Int) (startedAt : String) : Job :=
  { job_id := jid
    user_id := ""
    api_url := form.api_url
    api_key := form.api_key
    service_id := sid
    link := link
    quantity := form.quantity
    increase_range := [form.increase_min, form.increase_max]
    frequency := frequency
    next_run := nowT
    started_at := startedAt
    stopped := false
    orders := some []
    paused := none
    bulk_group_id := none
    paused_at := none
    resumed_at := none
    stopped_at := none
    stopped_by := none
    stopped_reason := none
    error_count := none
    template_id := none }

/-- The job-creation core of `app.setup_automation` (POST handler).  The
form-level frequency is clamped up to 5; bulk mode requires between 1 and 10
links and generates `bulk_group_id = f"bulk_{uuid}"` (the argument `g`),
single mode uses the one link and leaves the group id `None`.  With
individual settings (only reachable together with bulk mode) one job is
created per (config, link) pair; otherwise one per (link, service-id) pair
with the extra `bulk_service_ids` appended after the primary service id.
Flash-and-redirect error exits become `.error`; `ids` supplies the generated
`job_id` for the k-th created job.  The created jobs are appended to
`background_jobs` by the caller; each job's `user_id` is filled from the
session by the surrounding code and is set by the caller here too. -/
def setup_automation (user_id : String) (form : SetupForm) (g : String)
    (ids : Nat → String) (nowT : Int) (startedAt : String) :
    Except String (List Job) :=
  let frequency := if form.frequency < 5 then 5 else form.frequency
  let linksGid : Except String (List String × Option String) :=
    if form.bulk_mode then
      if form.bulk_links = [] then
        .error "Please enter at least one link for bulk automation"
      else if form.bulk_links.length > 10 then
        .error "Maximum 10 links allowed for bulk automation"
      else .ok (form.bulk_links, some g)
    else .ok ([form.link], none)
  match linksGid with
  | .error e => .error e
  | .ok (links, gid) =>
      if form.individual_settings ∧ form.bulk_mode then
        if form.configs = [] then .error "No service configurations found"
        else
          let pairs := (form.configs.map (fun c => links.map (fun l => (c, l)))).flatten
          .ok (mapWithIndex
            (fun i cl =>
              { mkIndivJob form cl.1 cl.2 (ids i) gid nowT startedAt with
                  user_id := user_id })
            0 pairs)
      else
        let pairs :=
          (links.map (fun l =>
            (form.service_id :: form.bulk_service_ids).map (fun sid => (l, sid)))).flatten
        .ok (mapWithIndex
          (fun i ls =>
            { mkPlainJob form frequency ls.1 ls.2 (ids i) nowT startedAt with
                user_id := user_id })
          0 pairs)

/-- The accumulated `/newjob` session data handed to
`bot.create_jobs_from_telegram`. -/
structure TgJobData where
  api_urls : List String
  api_keys : List String
  target_links : List String
  service_ids : List String
  quantity : Int
  increase_min : ℚ
  increase_max : ℚ
  frequency : Int

/-- `xs[i] if i < len(xs) else xs[0]`: position `i` past the end of the list
falls back to the first element; on an empty list the fallback raises
(`none`). -/
def pick (xs : List String) (i : Nat) : Option String :=
  if h : i < xs.length then some (xs.get ⟨i, h⟩) else xs.head?

/-- The job built for position `i` by `bot.create_jobs_from_telegram`;
`none` when any of the four broadcast lookups raises. -/
def tgJob (user_id : String) (d : TgJobData) (ids : Nat → String)
    (nowT : Int) (startedAt : String) (i : Nat) : Option Job :=
  match pick d.api_urls i, pick d.api_keys i, pick d.service_ids i,
        pick d.target_links i with
  | some u, some k, some sid, some l =>
      some
        { job_id := ids i
          user_id := user_id
          api_url := u
          api_key := k
          service_id := sid
          link := l
          quantity := d.quantity
          increase_range := [d.increase_min, d.increase_max]
          frequency := d.frequency
          next_run := nowT
          started_at := startedAt
          stopped := false
          orders := some []
          paused := none
          bulk_group_id := none
          paused_at := none
          resumed_at := none
          stopped_at := none
          stopped_by := none
          stopped_reason := none
          error_count := none
          template_id := none }
  | _, _, _, _ => none

/-- `bot.create_jobs_from_telegram(user_id, job_data)`: build
`min(10, max(len(api_urls), len(target_links), len(service_ids)))` jobs by
positional index with first-element broadcast for short lists, append them
to `background_jobs`, and return the count.  Any exception (an empty list
hit by the broadcast) aborts the whole creation and returns 0 jobs. -/
def create_jobs_from_telegram (user_id : String) (d : TgJobData)
    (ids : Nat → String) (nowT : Int) (startedAt : String) :
    List Job × Nat :=
  let max_jobs := max (max d.api_urls.length d.target_links.length) d.service_ids.length
  let max_jobs := if max_jobs > 10 then 10 else max_jobs
  match (List.range max_jobs).mapM (tgJob user_id d ids nowT startedAt) with
  | some js => (js, js.length)
  | none => ([], 0)

/-- JSON values as the `json` module exchanges them with `config.py`: Python
dicts are ordered key/value lists, ints and floats are separate number
shapes.  `json.dump` followed by `json.load` is the identity on these values
(the standard library's round-trip contract for JSON-representable data),
so a file is modelled as holding the value itself. -/
inductive JValue where
  | null : JValue
  | bool (b : Bool) : JValue
  | int (n : Int) : JValue
  | float (q : ℚ) : JValue
  | str (s : String) : JValue
  | arr (elems : List JValue) : JValue
  | obj (fields : List (String × JValue)) : JValue

/-- The six module-level collections `config.py` persists.  Jobs are the
dictionaries themselves (`background_jobs` is a list of JSON objects). -/
structure StoreState where
  user_data : List (String × JValue)
  activation_keys : List (String × JValue)
  active_users : List JValue
  bot_statistics : List (String × JValue)
  background_jobs : List JValue
  telegram_verification_codes : List (String × JValue)

/-- The on-disk `data/*.json` files; `none` is a missing file. -/
structure DataFiles where
  user_data : Option JValue
  activation_keys : Option JValue
  active_users : Option JValue
  bot_statistics : Option JValue
  background_jobs : Option JValue
  telegram_verification_codes : Option JValue

/-- `config.save_data()`: under the lock, dump every collection to a
temporary file, validate it by re-parsing, then delete-and-rename it over
the permanent file.  The net effect on the permanent files is that each now
holds its collection's JSON value; whatever was there before is replaced. -/
def save_data (s : StoreState) (_files : DataFiles) : DataFiles :=
  { user_data := some (.obj s.user_data)
    activation_keys := some (.obj s.activation_keys)
    active_users := some (.arr s.active_users)
    bot_statistics := some (.obj s.bot_statistics)
    background_jobs := some (.arr s.background_jobs)
    telegram_verification_codes := some (.obj s.telegram_verification_codes) }

/-- `config.load_data()`: for each collection, if its file exists and parses
to a value of the right container shape (`isinstance(..., list)` for the two
list collections, `isinstance(..., dict)` for the four dicts), clear the
in-memory collection and refill it from the file; otherwise keep the
in-memory contents. -/
def load_data (files : DataFiles) (s : StoreState) : StoreState :=
  { user_data := match files.user_data with
      | some (.obj d) => d
      | _ => s.user_data
    activation_keys := match files.activation_keys with
      | some (.obj d) => d
      | _ => s.activation_keys
    active_users := match files.active_users with
      | some (.arr l) => l
      | _ => s.active_users
    bot_statistics := match files.bot_statistics with
      | some (.obj d) => d
      | _ => s.bot_statistics
    background_jobs := match files.background_jobs with
      | some (.arr l) => l
      | _ => s.background_jobs
    telegram_verification_codes := match files.telegram_verification_codes with
      | some (.obj d) => d
      | _ => s.telegram_verification_codes }

/-! Concrete fixtures used by witnesses and counterexamples. -/

/-- A representative freshly created job (single-mode creation path). -/
def sampleJob : Job :=
  { job_id := "job_1"
    user_id := "alice"
    api_url := "https://panel.example/api/v2"
    api_key := "k"
    service_id := "77"
    link := "https://site.example/p"
    quantity := 100
    increase_range := [10, 20]
    frequency := 60
    next_run := 0
    started_at := "2026-01-01 00:00:00"
    stopped := false
    orders := some []
    paused := none
    bulk_group_id := none
    paused_at := none
    resumed_at := none
    stopped_at := none
    stopped_by := none
    stopped_reason := none
    error_count := none
    template_id := none }

/-- Zeroed statistics counters. -/
def stats0 : BotStats :=
  { total_orders := 0, successful_orders := 0, failed_orders := 0
    total_spent := 0, last_24h_orders := 0 }

/-! Helper lemmas. -/

theorem stepJob_stopped (now : Int) (env : TickEnv) (stats : BotStats)
    (job : Job) (h : job.stopped = true) :
    stepJob now env stats job = (job, false, stats) := by
  simp [stepJob, h]

theorem processJobs_stopped_frame (now : Int) (envf : Nat → TickEnv) :
    ∀ (jobs : List Job) (i0 : Nat) (stats : BotStats) (i : Nat) (j : Job),
      jobs[i]? = some j → j.stopped = true →
      (processJobs now envf i0 stats jobs).1[i]? = some j := by
  intro jobs
  induction jobs with
  | nil => intro i0 stats i j hg _; simp at hg
  | cons a as ih =>
      intro i0 stats i j hg hs
      cases i with
      | zero =>
          simp at hg
          subst hg
          simp [processJobs, stepJob_stopped now _ _ _ hs]
      | succ n =>
          simp at hg
          simpa [processJobs] using ih (i0 + 1) _ n j (by simpa using hg) hs

/-! C4 -/

/-- C4: a job with `stopped = true` is left exactly as it is by one
scheduler tick — in particular its `quantity`, `next_run`, and order history
are unchanged. -/
theorem stopped_job_tick_frame (now : Int) (envf : Nat → TickEnv)
    (stats : BotStats) (jobs : List Job) (i : Nat) (j : Job)
    (hg : jobs[i]? = some j) (hs : j.stopped = true) :
    (process_automation_jobs now envf stats jobs).1[i]? = some j :=
  processJobs_stopped_frame now envf jobs 0 stats i j hg hs

/-- Witness for C4 at a concrete stopped job. -/
theorem stopped_job_tick_frame_witness :
    ({ sampleJob with stopped := true } : Job).stopped = true ∧
    (process_automation_jobs 1000
        (fun _ => { userExists := true, panel := .ok { order := some "5", error := none },
                    ts := "t", percent := 10, raised := false, excMsg := "" })
        stats0 [{ sampleJob with stopped := true }]).1[0]?
      = some { sampleJob with stopped := true } :=
  ⟨rfl,
   stopped_job_tick_frame 1000
     (fun _ => { userExists := true, panel := .ok { order := some "5", error := none },
                 ts := "t", percent := 10, raised := false, excMsg := "" })
     stats0 [{ sampleJob with stopped := true }] 0 { sampleJob with stopped := true }
     rfl rfl⟩

/-! C6 -/

/-- C6: for `q ≥ 1` and a well-formed range `0 ≤ min ≤ max ≤ 100`, any
outcome `p ∈ [min, max]` of the uniform draw gives
`calculate_next_quantity q [min,max] p = q + ⌊q*p/100⌋`, a value in
`[q, q + ⌈q*max/100⌉]` and never below `q`; a malformed range falls back to
the deterministic 10% increase `q + ⌊q*10/100⌋` instead of raising. -/
theorem calculate_next_quantity_spec (q : Int) (mn mx p : ℚ)
    (hq : 1 ≤ q) (h0 : 0 ≤ mn) (hmn : mn ≤ mx) (h100 : mx ≤ 100)
    (hp1 : mn ≤ p) (hp2 : p ≤ mx) :
    calculate_next_quantity q [mn, mx] p = q + ⌊(q : ℚ) * p / 100⌋ ∧
    q ≤ calculate_next_quantity q [mn, mx] p ∧
    calculate_next_quantity q [mn, mx] p ≤ q + ⌈(q : ℚ) * mx / 100⌉ ∧
    ∀ r : List ℚ, r.length ≠ 2 →
      calculate_next_quantity q r p = q + ⌊(q : ℚ) * 10 / 100⌋ := by
  have hq0 : (0 : ℚ) ≤ (q : ℚ) := by exact_mod_cast hq.trans' (by norm_num)
  have hp0 : 0 ≤ p := h0.trans hp1
  have harg : 0 ≤ (q : ℚ) * (p / 100) := by positivity
  have hmain : calculate_next_quantity q [mn, mx] p = q + ⌊(q : ℚ) * p / 100⌋ := by
    simp only [calculate_next_quantity, pyInt, if_pos harg, mul_div_assoc]
  refine ⟨hmain, ?_, ?_, ?_⟩
  · rw [hmain]
    have : (0 : ℤ) ≤ ⌊(q : ℚ) * p / 100⌋ := by
      rw [Int.floor_nonneg]; positivity
    omega
  · rw [hmain]
    have h1 : ⌊(q : ℚ) * p / 100⌋ ≤ ⌊(q : ℚ) * mx / 100⌋ := by
      apply Int.floor_mono
      gcongr
    have h2 : ⌊(q : ℚ) * mx / 100⌋ ≤ ⌈(q : ℚ) * mx / 100⌉ := Int.floor_le_ceil _
    omega
  · intro r hr
    have hfall : calculate_next_quantity q r p = pyInt ((q : ℚ) * (11 / 10)) := by
      match r, hr with
      | [], _ => rfl
      | [_], _ => rfl
      | _ :: _ :: _ :: _, _ => rfl
      | [_, _], hr => exact absurd rfl hr
    have harg2 : 0 ≤ (q : ℚ) * (11 / 10) := by positivity
    rw [hfall]
    simp only [pyInt, if_pos harg2]
    have hsplit : (q : ℚ) * (11 / 10) = (q : ℚ) + (q : ℚ) * 10 / 100 := by ring
    rw [hsplit, Int.floor_int_add]

/-- Witness for C6: quantity 100, range [10, 20], draw 15. -/
theorem calculate_next_quantity_spec_witness :
    (1 : ℤ) ≤ 100 ∧ (0 : ℚ) ≤ 10 ∧ (10 : ℚ) ≤ 20 ∧ (20 : ℚ) ≤ 100 ∧
    (10 : ℚ) ≤ 15 ∧ (15 : ℚ) ≤ 20 ∧
    (calculate_next_quantity 100 [10, 20] 15 = 100 + ⌊(100 : ℚ) * 15 / 100⌋ ∧
     (100 : ℤ) ≤ calculate_next_quantity 100 [10, 20] 15 ∧
     calculate_next_quantity 100 [10, 20] 15 ≤ 100 + ⌈(100 : ℚ) * 20 / 100⌉ ∧
     ∀ r : List ℚ, r.length ≠ 2 →
       calculate_next_quantity 100 r 15 = 100 + ⌊(100 : ℚ) * 10 / 100⌋) :=
  ⟨by decide, by decide, by decide, by decide, by decide, by decide,
   calculate_next_quantity_spec 100 10 20 15 (by decide) (by decide) (by decide)
     (by decide) (by decide) (by decide)⟩

/-! C9 -/

/-- C9: saving the in-memory collections and reloading them reproduces the
job list exactly (same order, same values), together with the user map and
the counters map, for any prior file contents and any prior in-memory
state at load time. -/
theorem save_load_roundtrip (s : StoreState) (files : DataFiles) (s0 : StoreState) :
    (load_data (save_data s files) s0).background_jobs = s.background_jobs ∧
    (load_data (save_data s files) s0).user_data = s.user_data ∧
    (load_data (save_data s files) s0).bot_statistics = s.bot_statistics :=
  ⟨rfl, rfl, rfl⟩

/-! C1 -/

/-- A paused, non-stopped, due job. -/
def jobC1 : Job := { sampleJob with paused := some true }

/-- A tick environment with an existing user and a successful order reply. -/
def envOkC1 : TickEnv :=
  { userExists := true
    panel := .ok { order := some "555", error := none }
    ts := "2026-01-01 00:16:40"
    percent := 10
    raised := false
    excMsg := "" }

/-- C1, evaluated at the failing input: the scheduler loop never consults
the `paused` flag, so a job with `paused = true`, `stopped = false` that is
due is dispatched and mutated by one tick — its quantity grows, `next_run`
advances, and an order is appended to its history — where the claim says it
is skipped unchanged. -/
theorem paused_job_fires :
    jobC1.paused = some true ∧ jobC1.stopped = false ∧
    jobC1.next_run ≤ 1000 ∧
    (stepJob 1000 envOkC1 stats0 jobC1).2.1 = true ∧
    (stepJob 1000 envOkC1 stats0 jobC1).1.quantity = 110 ∧
    (stepJob 1000 envOkC1 stats0 jobC1).1.next_run = 4600 ∧
    (stepJob 1000 envOkC1 stats0 jobC1).1.paused = some true ∧
    ((stepJob 1000 envOkC1 stats0 jobC1).1.orders.getD []).length = 1 ∧
    (process_automation_jobs 1000 (fun _ => envOkC1) stats0 [jobC1]).1 ≠ [jobC1] := by
  with_unfolding_all decide

/-! C2 -/

/-- A job due at time 0 with a 5-minute cadence and no error history. -/
def jobC2 : Job := { sampleJob with frequency := 5 }

/-- A tick environment whose order call returns a failure-shaped reply
(no `order` key), i.e. a dispatch failure that raises no exception. -/
def envFailC2 : TickEnv :=
  { userExists := true
    panel := .ok { order := none, error := some "Not enough funds" }
    ts := "t"
    percent := 10
    raised := false
    excMsg := "" }

/-- The job after one more failing fire of the scheduler. -/
def fireFailC2 (now : Int) (j : Job) : Job := (stepJob now envFailC2 stats0 j).1

/-- Counterexample to C2: a job whose order placement fails on 6 consecutive
fires (its history holds 6 failure replies) is not stopped — failed
dispatch replies never touch `error_count`, which only counts exceptions
raised inside the per-job loop body. -/
theorem six_dispatch_failures_do_not_stop :
    (fireFailC2 1500 (fireFailC2 1200 (fireFailC2 900 (fireFailC2 600
        (fireFailC2 300 (fireFailC2 0 jobC2)))))).stopped = false ∧
    (fireFailC2 1500 (fireFailC2 1200 (fireFailC2 900 (fireFailC2 600
        (fireFailC2 300 (fireFailC2 0 jobC2)))))).error_count = none ∧
    ((fireFailC2 1500 (fireFailC2 1200 (fireFailC2 900 (fireFailC2 600
        (fireFailC2 300 (fireFailC2 0 jobC2)))))).orders.getD []).length = 6 ∧
    ((fireFailC2 1500 (fireFailC2 1200 (fireFailC2 900 (fireFailC2 600
        (fireFailC2 300 (fireFailC2 0 jobC2)))))).orders.getD []).map
        OrderInfo.response
      = [{ order := none, error := some "Not enough funds" },
         { order := none, error := some "Not enough funds" },
         { order := none, error := some "Not enough funds" },
         { order := none, error := some "Not enough funds" },
         { order := none, error := some "Not enough funds" },
         { order := none, error := some "Not enough funds" }] := by
  with_unfolding_all decide

/-- C2 as amended: the scheduler's error counter counts exceptions raised
while processing a job, not failed dispatch replies, and is never reset; a
non-raising tick leaves `stopped` and `error_count` untouched whatever the
order reply was; a raising tick increments `error_count` and stops the job
with reason `"Too many errors: ..."` exactly when the new count exceeds 5;
a stopped job is skipped entirely (no dispatch); and the exception-count
threshold is the only automatic path by which the scheduler stops a job. -/
theorem scheduler_error_policy (now : Int) (env : TickEnv) (stats : BotStats)
    (job : Job) :
    (env.raised = false →
      (stepJob now env stats job).1.stopped = job.stopped ∧
      (stepJob now env stats job).1.error_count = job.error_count) ∧
    (job.stopped = false → env.raised = true →
      (stepJob now env stats job).1.error_count = some (job.error_count.getD 0 + 1) ∧
      (job.error_count.getD 0 + 1 > 5 →
        (stepJob now env stats job).1.stopped = true ∧
        (stepJob now env stats job).1.stopped_reason
          = some ("Too many errors: " ++ env.excMsg)) ∧
      (job.error_count.getD 0 + 1 ≤ 5 →
        (stepJob now env stats job).1.stopped = false)) ∧
    (job.stopped = true → stepJob now env stats job = (job, false, stats)) ∧
    (job.stopped = false → (stepJob now env stats job).1.stopped = true →
      env.raised = true ∧ job.error_count.getD 0 + 1 > 5) := by
  have hec : (match job.error_count with
      | none => (1 : Int)
      | some n => n + 1) = job.error_count.getD 0 + 1 := by
    cases job.error_count <;> simp
  constructor
  · intro hr
    by_cases hstop : job.stopped
    · simp [stepJob, hstop]
    · by_cases hdue : now ≥ job.next_run
      · by_cases huser : env.userExists
        · simp [stepJob, hstop, hr, hdue, huser]
        · simp [stepJob, hstop, hr, hdue, huser]
      · simp [stepJob, hstop, hr, hdue]
  refine ⟨?_, ?_, ?_⟩
  · intro hstop hr
    by_cases hbig : job.error_count.getD 0 + 1 > 5
    · refine ⟨?_, fun _ => ⟨?_, ?_⟩, fun hle => absurd hbig (by omega)⟩ <;>
        simp [stepJob, hstop, hr, exceptJob, hec, hbig]
    · refine ⟨?_, fun h => absurd h hbig, fun _ => ?_⟩ <;>
        simp [stepJob, hstop, hr, exceptJob, hec, hbig, Bool.eq_false_iff] at *
  · intro hstop
    exact stepJob_stopped now env stats job hstop
  · intro hstop hstopped
    by_cases hr : env.raised
    · refine ⟨hr, ?_⟩
      by_contra hle
      have : (stepJob now env stats job).1.stopped = false := by
        simp only [stepJob, hstop, hr, exceptJob, hec, Bool.false_eq_true,
          if_false, if_true]
        rw [if_neg (show ¬ 5 < job.error_count.getD 0 + 1 by omega)]
      rw [this] at hstopped
      exact absurd hstopped (by simp)
    · have : (stepJob now env stats job).1.stopped = job.stopped := by
        by_cases hdue : now ≥ job.next_run
        · by_cases huser : env.userExists
          · simp [stepJob, hstop, hr, hdue, huser]
          · simp [stepJob, hstop, hr, hdue, huser]
        · simp [stepJob, hstop, hr, hdue]
      rw [this, hstop] at hstopped
      exact absurd hstopped (by simp)

/-- Witness for C2's amended theorem: a job holding 5 recorded exceptions
hits a 6th and is stopped with the recorded reason; the instantiation also
exhibits the skip of an already-stopped job. -/
theorem scheduler_error_policy_witness :
    ({ sampleJob with error_count := some 5 } : Job).stopped = false ∧
    ({ userExists := true, panel := .ok { order := none, error := some "boom" },
       ts := "t", percent := 10, raised := true, excMsg := "boom" } : TickEnv).raised
      = true ∧
    (({ sampleJob with error_count := some 5 } : Job).error_count.getD 0 + 1 > 5) ∧
    (stepJob 0
        { userExists := true, panel := .ok { order := none, error := some "boom" },
          ts := "t", percent := 10, raised := true, excMsg := "boom" }
        stats0 { sampleJob with error_count := some 5 }).1.stopped = true ∧
    (stepJob 0
        { userExists := true, panel := .ok { order := none, error := some "boom" },
          ts := "t", percent := 10, raised := true, excMsg := "boom" }
        stats0 { sampleJob with error_count := some 5 }).1.stopped_reason
      = some ("Too many errors: " ++ "boom") :=
  ⟨rfl, rfl, by decide,
   (((scheduler_error_policy 0
        { userExists := true, panel := .ok { order := none, error := some "boom" },
          ts := "t", percent := 10, raised := true, excMsg := "boom" }
        stats0 { sampleJob with error_count := some 5 }).2.1 rfl rfl).2.1
      (by decide)).1,
   (((scheduler_error_policy 0
        { userExists := true, panel := .ok { order := none, error := some "boom" },
          ts := "t", percent := 10, raised := true, excMsg := "boom" }
        stats0 { sampleJob with error_count := some 5 }).2.1 rfl rfl).2.1
      (by decide)).2⟩

/-! First-match behaviour of the single-job lifecycle operations. -/

theorem pause_job_append (job_id user_id ts : String) :
    ∀ (pre : List Job),
      (∀ j' ∈ pre, ¬(j'.job_id = job_id ∧ j'.user_id = user_id)) →
      ∀ (j : Job) (post : List Job), j.job_id = job_id → j.user_id = user_id →
      pause_job job_id user_id ts (pre ++ j :: post)
        = (pre ++ { j with paused := some true, paused_at := some ts } :: post, true) := by
  intro pre
  induction pre with
  | nil =>
      intro _ j post hid huid
      simp [pause_job, hid, huid]
  | cons a as ih =>
      intro hpre j post hid huid
      have ha : ¬(a.job_id = job_id ∧ a.user_id = user_id) := hpre a (by simp)
      have has : ∀ j' ∈ as, ¬(j'.job_id = job_id ∧ j'.user_id = user_id) :=
        fun j' hj' => hpre j' (by simp [hj'])
      simp only [List.cons_append, pause_job, if_neg ha, List.append_eq]
      rw [ih has j post hid huid]

theorem resume_job_append (job_id user_id ts : String) (now : Int) :
    ∀ (pre : List Job),
      (∀ j' ∈ pre, ¬(j'.job_id = job_id ∧ j'.user_id = user_id)) →
      ∀ (j : Job) (post : List Job), j.job_id = job_id → j.user_id = user_id →
      resume_job job_id user_id ts now (pre ++ j :: post)
        = (pre ++ { j with paused := some false, resumed_at := some ts,
                           next_run := now } :: post, true) := by
  intro pre
  induction pre with
  | nil =>
      intro _ j post hid huid
      simp [resume_job, hid, huid]
  | cons a as ih =>
      intro hpre j post hid huid
      have ha : ¬(a.job_id = job_id ∧ a.user_id = user_id) := hpre a (by simp)
      have has : ∀ j' ∈ as, ¬(j'.job_id = job_id ∧ j'.user_id = user_id) :=
        fun j' hj' => hpre j' (by simp [hj'])
      simp only [List.cons_append, resume_job, if_neg ha, List.append_eq]
      rw [ih has j post hid huid]

theorem stop_job_append (job_id : String) (sb : Option String) (ts : String) :
    ∀ (pre : List Job), (∀ j' ∈ pre, j'.job_id ≠ job_id) →
      ∀ (j : Job) (post : List Job), j.job_id = job_id →
      stop_job job_id sb ts (pre ++ j :: post)
        = (pre ++ { j with
              stopped := true
              stopped_at := some ts
              stopped_by := match sb with
                | some s => some s
                | none => j.stopped_by } :: post, true) := by
  intro pre
  induction pre with
  | nil =>
      intro _ j post hid
      simp [stop_job, hid]
  | cons a as ih =>
      intro hpre j post hid
      have ha : ¬ a.job_id = job_id := hpre a (by simp)
      have has : ∀ j' ∈ as, j'.job_id ≠ job_id :=
        fun j' hj' => hpre j' (by simp [hj'])
      simp only [List.cons_append, stop_job, if_neg ha, List.append_eq]
      rw [ih has j post hid]

/-! C3 -/

/-- A stopped job as a lifecycle-operation target. -/
def jobC3 : Job := { sampleJob with stopped := true, stopped_at := some "2026-01-02 00:00:00" }

/-- Counterexample to C3: on a job with `stopped = true`, pause, resume,
and stop all report success (`True`) and mutate the record, instead of
reporting not-found and leaving it unchanged. -/
theorem stopped_job_lifecycle_mutates :
    jobC3.stopped = true ∧
    (pause_job "job_1" "alice" "t9" [jobC3]).2 = true ∧
    (pause_job "job_1" "alice" "t9" [jobC3]).1 ≠ [jobC3] ∧
    (resume_job "job_1" "alice" "t9" 42 [jobC3]).2 = true ∧
    (resume_job "job_1" "alice" "t9" 42 [jobC3]).1 ≠ [jobC3] ∧
    (stop_job "job_1" (some "matrix") "t9" [jobC3]).2 = true ∧
    (stop_job "job_1" (some "matrix") "t9" [jobC3]).1 ≠ [jobC3] := by
  with_unfolding_all decide

/-- C3 as amended: none of the three single-job operations consults the
stopped flag.  On the first job matching their lookup key — id and owner
for pause/resume, id alone for stop — even a stopped job is mutated and the
call reports success: pause sets `paused`/`paused_at`, resume sets
`paused`/`resumed_at` and `next_run = now`, and stop re-stamps `stopped_at`
(and `stopped_by` when given), returning `True` again rather than a
not-found indicator. -/
theorem lifecycle_ignores_stopped_flag (job_id user_id ts : String)
    (sb : Option String) (now : Int) (pre post : List Job) (j : Job)
    (hpre : ∀ j' ∈ pre, j'.job_id ≠ job_id)
    (hid : j.job_id = job_id) (huid : j.user_id = user_id)
    (hstopped : j.stopped = true) :
    pause_job job_id user_id ts (pre ++ j :: post)
      = (pre ++ { j with paused := some true, paused_at := some ts } :: post, true) ∧
    resume_job job_id user_id ts now (pre ++ j :: post)
      = (pre ++ { j with paused := some false, resumed_at := some ts,
                         next_run := now } :: post, true) ∧
    stop_job job_id sb ts (pre ++ j :: post)
      = (pre ++ { j with
            stopped := true
            stopped_at := some ts
            stopped_by := match sb with
              | some s => some s
              | none => j.stopped_by } :: post, true) := by
  have hpre2 : ∀ j' ∈ pre, ¬(j'.job_id = job_id ∧ j'.user_id = user_id) :=
    fun j' hj' h => hpre j' hj' h.1
  exact ⟨pause_job_append job_id user_id ts pre hpre2 j post hid huid,
         resume_job_append job_id user_id ts now pre hpre2 j post hid huid,
         stop_job_append job_id sb ts pre hpre j post hid⟩

/-- Witness for C3's amended theorem at a concrete stopped job. -/
theorem lifecycle_ignores_stopped_flag_witness :
    jobC3.job_id = "job_1" ∧ jobC3.user_id = "alice" ∧ jobC3.stopped = true ∧
    pause_job "job_1" "alice" "t9" ([] ++ jobC3 :: [])
      = ([] ++ { jobC3 with paused := some true, paused_at := some "t9" } :: [], true) ∧
    resume_job "job_1" "alice" "t9" 42 ([] ++ jobC3 :: [])
      = ([] ++ { jobC3 with paused := some false, resumed_at := some "t9",
                            next_run := 42 } :: [], true) ∧
    stop_job "job_1" (some "matrix") "t9" ([] ++ jobC3 :: [])
      = ([] ++ { jobC3 with
            stopped := true
            stopped_at := some "t9"
            stopped_by := match (some "matrix" : Option String) with
              | some s => some s
              | none => jobC3.stopped_by } :: [], true) := by
  have h := lifecycle_ignores_stopped_flag "job_1" "alice" "t9" (some "matrix") 42
    [] [] jobC3 (by simp) rfl rfl rfl
  exact ⟨rfl, rfl, rfl, h.1, h.2.1, h.2.2⟩

/-! C7 -/

/-- C7: resuming a paused, non-stopped job owned by the requester reports
success, sets `paused = false`, records the resumed timestamp, and resets
`next_run = now` (hence `next_run ≤ now`), so any later tick that reaches
the job with no exception and an existing user dispatches it regardless of
its configured frequency. -/
theorem resume_makes_job_due (job_id user_id ts : String) (now : Int)
    (pre post : List Job) (j : Job)
    (hpre : ∀ j' ∈ pre, ¬(j'.job_id = job_id ∧ j'.user_id = user_id))
    (hid : j.job_id = job_id) (huid : j.user_id = user_id)
    (hpaused : j.paused = some true) (hstopped : j.stopped = false) :
    (resume_job job_id user_id ts now (pre ++ j :: post)).2 = true ∧
    (resume_job job_id user_id ts now (pre ++ j :: post)).1
      = pre ++ { j with paused := some false, resumed_at := some ts,
                        next_run := now } :: post ∧
    ({ j with paused := some false, resumed_at := some ts,
              next_run := now } : Job).next_run ≤ now ∧
    ({ j with paused := some false, resumed_at := some ts,
              next_run := now } : Job).paused = some false ∧
    ({ j with paused := some false, resumed_at := some ts,
              next_run := now } : Job).resumed_at = some ts ∧
    ∀ (t : Int) (env : TickEnv) (stats : BotStats),
      now ≤ t → env.raised = false → env.userExists = true →
      (stepJob t env stats
        { j with paused := some false, resumed_at := some ts,
                 next_run := now }).2.1 = true := by
  have h := resume_job_append job_id user_id ts now pre hpre j post hid huid
  refine ⟨by rw [h], by rw [h], le_refl now, rfl, rfl, ?_⟩
  intro t env stats ht hr hu
  simp [stepJob, hstopped, hr, hu, ht]

/-- Witness for C7 at a concrete paused job. -/
theorem resume_makes_job_due_witness :
    ({ sampleJob with paused := some true, next_run := 100000 } : Job).paused
      = some true ∧
    ({ sampleJob with paused := some true, next_run := 100000 } : Job).stopped
      = false ∧
    (resume_job "job_1" "alice" "t3" 42
        ([] ++ { sampleJob with paused := some true, next_run := 100000 } :: [])).2
      = true ∧
    ({ { sampleJob with paused := some true, next_run := 100000 } with
        paused := some false, resumed_at := some "t3", next_run := 42 } : Job).next_run
      ≤ 42 := by
  have h := resume_makes_job_due "job_1" "alice" "t3" 42 [] []
    { sampleJob with paused := some true, next_run := 100000 }
    (by simp) rfl rfl rfl rfl
  exact ⟨rfl, rfl, h.1, h.2.2.1⟩

/-! C5 -/

/-- Shared shape of the three bulk operations: walk the collection, apply
`f` to exactly the jobs matching the bulk predicate, and count them. -/
theorem bulkFold_spec (g u : String) (f : Job → Job)
    (F : List Job → List Job × Nat)
    (hnil : F [] = ([], 0))
    (hcons : ∀ j js, F (j :: js) =
      if bulkMatch g u j then (f j :: (F js).1, (F js).2 + 1)
      else (j :: (F js).1, (F js).2)) :
    ∀ jobs : List Job,
      (F jobs).1.length = jobs.length ∧
      (∀ (i : Nat) (j : Job), jobs[i]? = some j →
        (F jobs).1[i]? = some (if bulkMatch g u j then f j else j)) ∧
      (F jobs).2 = jobs.countP (fun j => decide (bulkMatch g u j)) := by
  intro jobs
  induction jobs with
  | nil =>
      refine ⟨by simp [hnil], ?_, by simp [hnil]⟩
      intro i j hg
      simp at hg
  | cons a as ih =>
      obtain ⟨ihlen, ihget, ihcount⟩ := ih
      by_cases hm : bulkMatch g u a
      · refine ⟨?_, ?_, ?_⟩
        · simp [hcons, hm, ihlen]
        · intro i j hg
          cases i with
          | zero =>
              simp at hg
              subst hg
              simp [hcons, hm]
          | succ n =>
              simp at hg
              simpa [hcons, hm] using ihget n j hg
        · simp [hcons, hm, ihcount, List.countP_cons]
      · refine ⟨?_, ?_, ?_⟩
        · simp [hcons, hm, ihlen]
        · intro i j hg
          cases i with
          | zero =>
              simp at hg
              subst hg
              simp [hcons, hm]
          | succ n =>
              simp at hg
              simpa [hcons, hm] using ihget n j hg
        · simp [hcons, hm, ihcount, List.countP_cons]

/-- C5: each bulk operation touches exactly the jobs whose `bulk_group_id`
is the requested group, whose owner is the requester, and which are not
stopped; every other job is returned unchanged, list length and order are
preserved, and the returned value is the count of matched jobs — a total
function, so a count of 0 is an ordinary result, not an error. -/
theorem bulk_ops_affect_exact_subset (g u ts : String) (now : Int)
    (jobs : List Job) :
    ((pause_bulk_jobs g u ts jobs).1.length = jobs.length ∧
     (∀ (i : Nat) (j : Job), jobs[i]? = some j →
       (pause_bulk_jobs g u ts jobs).1[i]? =
         some (if bulkMatch g u j then
           { j with paused := some true, paused_at := some ts } else j)) ∧
     (pause_bulk_jobs g u ts jobs).2
       = jobs.countP (fun j => decide (bulkMatch g u j))) ∧
    ((resume_bulk_jobs g u ts now jobs).1.length = jobs.length ∧
     (∀ (i : Nat) (j : Job), jobs[i]? = some j →
       (resume_bulk_jobs g u ts now jobs).1[i]? =
         some (if bulkMatch g u j then
           { j with paused := some false, resumed_at := some ts,
                    next_run := now } else j)) ∧
     (resume_bulk_jobs g u ts now jobs).2
       = jobs.countP (fun j => decide (bulkMatch g u j))) ∧
    ((stop_bulk_jobs g u ts jobs).1.length = jobs.length ∧
     (∀ (i : Nat) (j : Job), jobs[i]? = some j →
       (stop_bulk_jobs g u ts jobs).1[i]? =
         some (if bulkMatch g u j then
           { j with stopped := true, stopped_at := some ts } else j)) ∧
     (stop_bulk_jobs g u ts jobs).2
       = jobs.countP (fun j => decide (bulkMatch g u j))) :=
  ⟨bulkFold_spec g u (fun j => { j with paused := some true, paused_at := some ts })
     (pause_bulk_jobs g u ts) rfl (fun j js => by simp [pause_bulk_jobs]) jobs,
   bulkFold_spec g u
     (fun j => { j with paused := some false, resumed_at := some ts, next_run := now })
     (resume_bulk_jobs g u ts now) rfl (fun j js => by simp [resume_bulk_jobs]) jobs,
   bulkFold_spec g u (fun j => { j with stopped := true, stopped_at := some ts })
     (stop_bulk_jobs g u ts) rfl (fun j js => by simp [stop_bulk_jobs]) jobs⟩

/-- A job in bulk group `"g"` owned by `"alice"`, not stopped. -/
def jobC5m : Job := { sampleJob with bulk_group_id := some "g" }

/-- A job of another user in the same group. -/
def jobC5o : Job := { sampleJob with bulk_group_id := some "g", user_id := "bob" }

/-- Witness for C5 on a two-job collection where exactly one job matches. -/
theorem bulk_ops_affect_exact_subset_witness :
    (pause_bulk_jobs "g" "alice" "t" [jobC5m, jobC5o]).1[0]? =
      some (if bulkMatch "g" "alice" jobC5m then
        { jobC5m with paused := some true, paused_at := some "t" } else jobC5m) ∧
    (pause_bulk_jobs "g" "alice" "t" [jobC5m, jobC5o]).1[1]? =
      some (if bulkMatch "g" "alice" jobC5o then
        { jobC5o with paused := some true, paused_at := some "t" } else jobC5o) ∧
    (pause_bulk_jobs "g" "alice" "t" [jobC5m, jobC5o]).2
      = [jobC5m, jobC5o].countP (fun j => decide (bulkMatch "g" "alice" j)) ∧
    [jobC5m, jobC5o].countP (fun j => decide (bulkMatch "g" "alice" j)) = 1 ∧
    (stop_bulk_jobs "g" "alice" "t" [jobC5m, jobC5o]).2 = 1 ∧
    (resume_bulk_jobs "g" "alice" "t" 42 [jobC5m, jobC5o]).2 = 1 := by
  have h := bulk_ops_affect_exact_subset "g" "alice" "t" 42 [jobC5m, jobC5o]
  have hcount : [jobC5m, jobC5o].countP (fun j => decide (bulkMatch "g" "alice" j)) = 1 := by
    with_unfolding_all decide
  exact ⟨h.1.2.1 0 jobC5m rfl, h.1.2.1 1 jobC5o rfl, h.1.2.2, hcount,
         h.2.2.2.2 ▸ hcount, h.2.1.2.2 ▸ hcount⟩

/-! Helper lemmas for the creation paths. -/

theorem mem_mapWithIndex {α β : Type} {f : Nat → α → β} :
    ∀ (l : List α) (i : Nat) (b : β), b ∈ mapWithIndex f i l →
      ∃ k a, a ∈ l ∧ b = f k a := by
  intro l
  induction l with
  | nil => intro i b h; simp [mapWithIndex] at h
  | cons x xs ih =>
      intro i b h
      simp only [mapWithIndex, List.mem_cons] at h
      rcases h with h | h
      · exact ⟨i, x, by simp, h⟩
      · obtain ⟨k, a, ha, hb⟩ := ih (i + 1) b h
        exact ⟨k, a, by simp [ha], hb⟩

theorem mapM_option_mem {α β : Type} {f : α → Option β} :
    ∀ (l : List α) (bs : List β), l.mapM f = some bs →
      ∀ b ∈ bs, ∃ a ∈ l, f a = some b := by
  intro l
  induction l with
  | nil =>
      intro bs h b hb
      simp only [List.mapM_nil, Option.pure_def, Option.some.injEq] at h
      subst h; simp at hb
  | cons x xs ih =>
      intro bs h b hb
      rw [List.mapM_cons] at h
      cases hf : f x with
      | none => rw [hf] at h; simp at h
      | some y =>
          rw [hf] at h
          cases hms : xs.mapM f with
          | none => rw [hms] at h; simp at h
          | some ys =>
              rw [hms] at h
              simp at h
              subst h
              rcases List.mem_cons.mp hb with rfl | hbys
              · exact ⟨x, by simp, hf⟩
              · obtain ⟨a, ha, hfa⟩ := ih ys hms b hbys
                exact ⟨a, by simp [ha], hfa⟩

theorem mapM_option_eq_map {α β : Type} {f : α → Option β} {g : α → β} :
    ∀ l : List α, (∀ a ∈ l, f a = some (g a)) → l.mapM f = some (l.map g) := by
  intro l
  induction l with
  | nil => intro _; rfl
  | cons x xs ih =>
      intro hall
      rw [List.mapM_cons, hall x (by simp), ih (fun a ha => hall a (by simp [ha]))]
      rfl

/-! C8 -/

/-- C8 as amended: only the individual-settings branch of the web creation
form attaches the generated group id — there every created job carries
`bulk_group_id = some g`.  Every job created by the plain bulk or single
web branch, and every job created by the conversational builder, has
`bulk_group_id` absent, even when one request produces several jobs. -/
theorem bulk_group_id_assignment :
    (∀ (uid : String) (form : SetupForm) (g : String) (ids : Nat → String)
       (t : Int) (s : String) (l : List Job),
       form.bulk_mode = true → form.individual_settings = true →
       setup_automation uid form g ids t s = .ok l →
       ∀ j ∈ l, j.bulk_group_id = some g) ∧
    (∀ (uid : String) (form : SetupForm) (g : String) (ids : Nat → String)
       (t : Int) (s : String) (l : List Job),
       form.individual_settings = false ∨ form.bulk_mode = false →
       setup_automation uid form g ids t s = .ok l →
       ∀ j ∈ l, j.bulk_group_id = none) ∧
    (∀ (uid : String) (d : TgJobData) (ids : Nat → String) (t : Int)
       (s : String) (j : Job),
       j ∈ (create_jobs_from_telegram uid d ids t s).1 →
       j.bulk_group_id = none) := by
  refine ⟨?_, ?_, ?_⟩
  · intro uid form g ids t s l hbulk hindiv h j hj
    unfold setup_automation at h
    simp only [hbulk, hindiv, eq_self_iff_true, and_self, if_true] at h
    by_cases h1 : form.bulk_links = []
    · rw [if_pos h1] at h; exact absurd h (by simp)
    rw [if_neg h1] at h
    by_cases h2 : form.bulk_links.length > 10
    · rw [if_pos h2] at h; exact absurd h (by simp)
    rw [if_neg h2] at h
    dsimp only at h
    by_cases h3 : form.configs = []
    · rw [if_pos h3] at h; exact absurd h (by simp)
    rw [if_neg h3] at h
    injection h with h
    subst h
    obtain ⟨k, a, _, rfl⟩ := mem_mapWithIndex _ _ _ hj
    rfl
  · intro uid form g ids t s l hcase h j hj
    unfold setup_automation at h
    cases hbulk : form.bulk_mode with
    | true =>
        have hindiv : form.individual_settings = false := by
          rcases hcase with hc | hc
          · exact hc
          · rw [hbulk] at hc; exact absurd hc (by simp)
        simp only [hbulk, hindiv, eq_self_iff_true, if_true, Bool.false_eq_true,
          false_and, if_false] at h
        by_cases h1 : form.bulk_links = []
        · rw [if_pos h1] at h; exact absurd h (by simp)
        rw [if_neg h1] at h
        by_cases h2 : form.bulk_links.length > 10
        · rw [if_pos h2] at h; exact absurd h (by simp)
        rw [if_neg h2] at h
        dsimp only at h
        injection h with h
        subst h
        obtain ⟨k, a, _, rfl⟩ := mem_mapWithIndex _ _ _ hj
        rfl
    | false =>
        simp only [hbulk, Bool.false_eq_true, if_false, and_false] at h
        injection h with h
        subst h
        obtain ⟨k, a, _, rfl⟩ := mem_mapWithIndex _ _ _ hj
        rfl
  · intro uid d ids t s j hj
    have hj2 : j ∈ (match (List.range
        (if max (max d.api_urls.length d.target_links.length)
              d.service_ids.length > 10 then 10
         else max (max d.api_urls.length d.target_links.length)
              d.service_ids.length)).mapM (tgJob uid d ids t s) with
        | some js => (js, js.length)
        | none => (([] : List Job), (0 : Nat))).1 := hj
    rcases hm : (List.range
        (if max (max d.api_urls.length d.target_links.length)
              d.service_ids.length > 10 then 10
         else max (max d.api_urls.length d.target_links.length)
              d.service_ids.length)).mapM (tgJob uid d ids t s) with _ | js
    · rw [hm] at hj2; simp at hj2
    · rw [hm] at hj2
      obtain ⟨i, _, hi⟩ := mapM_option_mem _ js hm j hj2
      unfold tgJob at hi
      cases h1 : pick d.api_urls i <;> rw [h1] at hi
      case none => exact absurd hi (by simp)
      cases h2 : pick d.api_keys i <;> rw [h2] at hi
      case none => exact absurd hi (by simp)
      cases h3 : pick d.service_ids i <;> rw [h3] at hi
      case none => exact absurd hi (by simp)
      cases h4 : pick d.target_links i <;> rw [h4] at hi
      case none => exact absurd hi (by simp)
      simp only [Option.some.injEq] at hi
      subst hi
      rfl

/-- The form of a plain bulk-mode request: two links, no individual
settings. -/
def formC8 : SetupForm :=
  { api_url := "https://panel.example/api/v2"
    api_key := "k"
    service_id := "77"
    bulk_service_ids := []
    quantity := 100
    increase_min := 10
    increase_max := 20
    frequency := 60
    bulk_mode := true
    individual_settings := false
    bulk_links := ["https://site.example/p1", "https://site.example/p2"]
    link := ""
    configs := [] }

/-- Counterexample to C8: a plain bulk-mode request producing two jobs
attaches no `bulk_group_id` to either of them (the generated group id is
computed but never stored on the jobs), so the two jobs of one request do
not carry a shared non-absent group id. -/
theorem bulk_jobs_lack_group_id :
    setup_automation "alice" formC8 "bulk_g1" (fun _ => "jid") 0 "st"
      = .ok
        [{ mkPlainJob formC8 60 "https://site.example/p1" "77" "jid" 0 "st" with
             user_id := "alice" },
         { mkPlainJob formC8 60 "https://site.example/p2" "77" "jid" 0 "st" with
             user_id := "alice" }] ∧
    ({ mkPlainJob formC8 60 "https://site.example/p1" "77" "jid" 0 "st" with
         user_id := "alice" } : Job).bulk_group_id = none ∧
    ({ mkPlainJob formC8 60 "https://site.example/p2" "77" "jid" 0 "st" with
         user_id := "alice" } : Job).bulk_group_id = none := by
  refine ⟨rfl, rfl, rfl⟩

/-- The individual-settings service block used in the C8 witness. -/
def cfgC8 : ServiceConfig :=
  { service_id := "77", quantity := 50, increase_min := 5, increase_max := 5
    frequency := 10 }

/-- The same bulk request with individual settings enabled. -/
def formC8i : SetupForm :=
  { formC8 with individual_settings := true, configs := [cfgC8] }

/-- Jobs produced by the individual-settings request of the C8 witness. -/
def jobsC8i : List Job :=
  (setup_automation "alice" formC8i "bulk_g1" (fun _ => "jid") 0 "st").toOption.getD []

/-- Jobs produced by the plain bulk request of the C8 witness. -/
def jobsC8p : List Job :=
  (setup_automation "alice" formC8 "bulk_g1" (fun _ => "jid") 0 "st").toOption.getD []

/-- Conversational-builder session data for the C8 witness. -/
def dC8t : TgJobData :=
  { api_urls := ["u1"], api_keys := ["k1"], target_links := ["l1", "l2"]
    service_ids := ["77"], quantity := 50, increase_min := 5
    increase_max := 5, frequency := 10 }

/-- Witness for C8's amended theorem: the individual-settings branch does
attach the shared id to every job it creates, the plain bulk branch
attaches none, and neither does the conversational builder. -/
theorem bulk_group_id_assignment_witness :
    formC8i.bulk_mode = true ∧ formC8i.individual_settings = true ∧
    setup_automation "alice" formC8i "bulk_g1" (fun _ => "jid") 0 "st"
      = .ok jobsC8i ∧
    jobsC8i.length = 2 ∧
    (∀ j ∈ jobsC8i, j.bulk_group_id = some "bulk_g1") ∧
    setup_automation "alice" formC8 "bulk_g1" (fun _ => "jid") 0 "st"
      = .ok jobsC8p ∧
    jobsC8p.length = 2 ∧
    (∀ j ∈ jobsC8p, j.bulk_group_id = none) ∧
    (∀ j ∈ (create_jobs_from_telegram "alice" dC8t (fun _ => "jid") 0 "st").1,
      j.bulk_group_id = none) :=
  ⟨rfl, rfl, rfl, rfl,
   bulk_group_id_assignment.1 "alice" formC8i "bulk_g1" (fun _ => "jid") 0 "st"
     jobsC8i rfl rfl rfl,
   rfl, rfl,
   bulk_group_id_assignment.2.1 "alice" formC8 "bulk_g1" (fun _ => "jid") 0 "st"
     jobsC8p (Or.inl rfl) rfl,
   fun j hj => bulk_group_id_assignment.2.2 "alice" dC8t (fun _ => "jid") 0 "st" j hj⟩

/-! C10 -/

/-- The value `xs[i] if i < len(xs) else xs[0]` takes on a non-empty list:
the positional entry below the length, the first element at or beyond it. -/
def broadcastGet (xs : List String) (i : Nat) : String :=
  if h : i < xs.length then xs.get ⟨i, h⟩ else xs.headD ""

theorem pick_eq_broadcast (xs : List String) (hxs : xs ≠ []) (i : Nat) :
    pick xs i = some (broadcastGet xs i) := by
  unfold pick broadcastGet
  split
  · rfl
  · cases xs with
    | nil => exact absurd rfl hxs
    | cons a as => rfl

/-- The job the conversational builder creates at position `i` when every
broadcast lookup succeeds. -/
def tgJobAt (user_id : String) (d : TgJobData) (ids : Nat → String)
    (nowT : Int) (startedAt : String) (i : Nat) : Job :=
  { job_id := ids i
    user_id := user_id
    api_url := broadcastGet d.api_urls i
    api_key := broadcastGet d.api_keys i
    service_id := broadcastGet d.service_ids i
    link := broadcastGet d.target_links i
    quantity := d.quantity
    increase_range := [d.increase_min, d.increase_max]
    frequency := d.frequency
    next_run := nowT
    started_at := startedAt
    stopped := false
    orders := some []
    paused := none
    bulk_group_id := none
    paused_at := none
    resumed_at := none
    stopped_at := none
    stopped_by := none
    stopped_reason := none
    error_count := none
    template_id := none }

theorem tgJob_eq_tgJobAt (uid : String) (d : TgJobData) (ids : Nat → String)
    (t : Int) (s : String) (i : Nat)
    (hu : d.api_urls ≠ []) (hk : d.api_keys ≠ []) (hl : d.target_links ≠ [])
    (hs : d.service_ids ≠ []) :
    tgJob uid d ids t s i = some (tgJobAt uid d ids t s i) := by
  unfold tgJob tgJobAt
  rw [pick_eq_broadcast _ hu i, pick_eq_broadcast _ hk i,
      pick_eq_broadcast _ hs i, pick_eq_broadcast _ hl i]

/-- C10: with all four session lists non-empty, the conversational builder
creates exactly `min(10, max(|api_urls|, |target_links|, |service_ids|))`
jobs (the key list's length does not enter the count, and the count is at
least 1, so mismatched lengths never abort the creation); job `i` draws
each field positionally, falling back to the field list's first element for
every position at or beyond that list's length — also when the shorter list
has several elements. -/
theorem telegram_pairing (uid : String) (d : TgJobData) (ids : Nat → String)
    (t : Int) (s : String)
    (hu : d.api_urls ≠ []) (hk : d.api_keys ≠ []) (hl : d.target_links ≠ [])
    (hs : d.service_ids ≠ []) :
    (create_jobs_from_telegram uid d ids t s).2
      = min 10 (max (max d.api_urls.length d.target_links.length)
          d.service_ids.length) ∧
    (create_jobs_from_telegram uid d ids t s).1.length
      = (create_jobs_from_telegram uid d ids t s).2 ∧
    1 ≤ (create_jobs_from_telegram uid d ids t s).2 ∧
    ∀ (i : Nat) (h : i < (create_jobs_from_telegram uid d ids t s).1.length),
      (((create_jobs_from_telegram uid d ids t s).1.get ⟨i, h⟩).link
        = if hlt : i < d.target_links.length then d.target_links.get ⟨i, hlt⟩
          else d.target_links.headD "") ∧
      (((create_jobs_from_telegram uid d ids t s).1.get ⟨i, h⟩).api_url
        = if hlt : i < d.api_urls.length then d.api_urls.get ⟨i, hlt⟩
          else d.api_urls.headD "") ∧
      (((create_jobs_from_telegram uid d ids t s).1.get ⟨i, h⟩).api_key
        = if hlt : i < d.api_keys.length then d.api_keys.get ⟨i, hlt⟩
          else d.api_keys.headD "") ∧
      (((create_jobs_from_telegram uid d ids t s).1.get ⟨i, h⟩).service_id
        = if hlt : i < d.service_ids.length then d.service_ids.get ⟨i, hlt⟩
          else d.service_ids.headD "") := by
  have hmapM : ∀ N : Nat, (List.range N).mapM (tgJob uid d ids t s)
      = some ((List.range N).map (tgJobAt uid d ids t s)) := fun N =>
    mapM_option_eq_map _ (fun i _ => tgJob_eq_tgJobAt uid d ids t s i hu hk hl hs)
  have hcr : create_jobs_from_telegram uid d ids t s
      = ((List.range (if max (max d.api_urls.length d.target_links.length)
              d.service_ids.length > 10 then 10
            else max (max d.api_urls.length d.target_links.length)
              d.service_ids.length)).map (tgJobAt uid d ids t s),
         ((List.range (if max (max d.api_urls.length d.target_links.length)
              d.service_ids.length > 10 then 10
            else max (max d.api_urls.length d.target_links.length)
              d.service_ids.length)).map (tgJobAt uid d ids t s)).length) := by
    have h0 : create_jobs_from_telegram uid d ids t s
        = (match (List.range (if max (max d.api_urls.length d.target_links.length)
              d.service_ids.length > 10 then 10
            else max (max d.api_urls.length d.target_links.length)
              d.service_ids.length)).mapM (tgJob uid d ids t s) with
           | some js => (js, js.length)
           | none => (([] : List Job), (0 : Nat))) := rfl
    rw [h0, hmapM]
  have hlen1 : 1 ≤ d.target_links.length := by
    cases dl : d.target_links with
    | nil => exact absurd dl hl
    | cons a as => simp
  have hminN : (if max (max d.api_urls.length d.target_links.length)
        d.service_ids.length > 10 then 10
      else max (max d.api_urls.length d.target_links.length)
        d.service_ids.length)
      = min 10 (max (max d.api_urls.length d.target_links.length)
          d.service_ids.length) := by
    split <;> omega
  refine ⟨?_, ?_, ?_, ?_⟩
  · rw [hcr]
    simp only [List.length_map, List.length_range]
    exact hminN
  · rw [hcr]
  · rw [hcr]
    simp only [List.length_map, List.length_range, hminN]
    omega
  · intro i h
    have hi : i < (List.range (if max (max d.api_urls.length d.target_links.length)
          d.service_ids.length > 10 then 10
        else max (max d.api_urls.length d.target_links.length)
          d.service_ids.length)).length := by
      rw [hcr] at h
      simpa using h
    have hget : (create_jobs_from_telegram uid d ids t s).1.get ⟨i, h⟩
        = tgJobAt uid d ids t s i := by
      have := hcr
      rw [List.get_of_eq (congrArg Prod.fst hcr) ⟨i, h⟩]
      simp [tgJobAt]
    rw [hget]
    exact ⟨rfl, rfl, rfl, rfl⟩

/-- Session lists for the C10 witness: 2 urls, 1 key, 3 links, 1 service. -/
def dC10 : TgJobData :=
  { api_urls := ["u1", "u2"]
    api_keys := ["k1"]
    target_links := ["l1", "l2", "l3"]
    service_ids := ["s1"]
    quantity := 50
    increase_min := 5
    increase_max := 5
    frequency := 10 }

/-- Witness for C10: three jobs are created; position 2 falls back to the
first url and the first key even though the url list has two entries. -/
theorem telegram_pairing_witness :
    dC10.api_urls ≠ [] ∧ dC10.api_keys ≠ [] ∧ dC10.target_links ≠ [] ∧
    dC10.service_ids ≠ [] ∧
    (create_jobs_from_telegram "alice" dC10 (fun _ => "id") 0 "st").2
      = min 10 (max (max dC10.api_urls.length dC10.target_links.length)
          dC10.service_ids.length) ∧
    min 10 (max (max dC10.api_urls.length dC10.target_links.length)
        dC10.service_ids.length) = 3 ∧
    (create_jobs_from_telegram "alice" dC10 (fun _ => "id") 0 "st").1.length
      = (create_jobs_from_telegram "alice" dC10 (fun _ => "id") 0 "st").2 ∧
    (((create_jobs_from_telegram "alice" dC10 (fun _ => "id") 0 "st").1.get
        ⟨2, by decide⟩).api_url
      = if hlt : 2 < dC10.api_urls.length then dC10.api_urls.get ⟨2, hlt⟩
        else dC10.api_urls.headD "") ∧
    (if hlt : 2 < dC10.api_urls.length then dC10.api_urls.get ⟨2, hlt⟩
      else dC10.api_urls.headD "") = "u1" := by
  have h := telegram_pairing "alice" dC10 (fun _ => "id") 0 "st"
    (by decide) (by decide) (by decide) (by decide)
  exact ⟨by decide, by decide, by decide, by decide, h.1, by decide, h.2.1,
         (h.2.2.2 2 (by decide)).2.1, by decide⟩

end SMM
